import Mathlib

/-!
Shallow embedding of the fraud-detection pipeline
(`real_time_processor.py`, `database.py`, `fraud_detection_model.py`,
`integrations/fraud_databases.py`).  Python floats are modelled as
rationals; dictionaries returned by the pipeline stages are modelled as
structures; SQLite integrity errors are modelled as `Except` values that
the store wrapper catches.
-/

/-- Risk buckets returned by `_get_risk_level` in both
`real_time_processor.py` and `fraud_detection_model.py`. -/
inductive RiskLevel where
  | Low
  | Medium
  | High
deriving DecidableEq, Repr

/-- `RealTimeFraudProcessor._get_risk_level` (real_time_processor.py,
lines 256-263): `< 0.3 → Low`, `< 0.7 → Medium`, else `High`. -/
def getRiskLevel (probability : ℚ) : RiskLevel :=
  if probability < 3/10 then .Low
  else if probability < 7/10 then .Medium
  else .High

/-- `FraudDetectionModel._get_risk_level` (fraud_detection_model.py,
lines 153-160); same thresholds as the processor's copy. -/
def model_getRiskLevel (probability : ℚ) : RiskLevel :=
  if probability < 3/10 then .Low
  else if probability < 7/10 then .Medium
  else .High

/-- Result dictionary of `FraudDetectionModel.predict_fraud`
(fraud_detection_model.py): `is_fraud`, `fraud_probability`,
`risk_level` (the `timestamp` string field is irrelevant here).
`predict_fraud` returns no `risk_factors` key, so
`_combine_fraud_results` reads `[]` for the internal side. -/
structure InternalResult where
  is_fraud : Bool
  fraud_probability : ℚ
  risk_level : RiskLevel
deriving DecidableEq, Repr

/-- Result dictionary of `FraudDatabaseManager.analyze_transaction`
(fraud_databases.py): `combined_risk_score` and `risk_factors`
(the per-source `source_results` map is dropped). -/
structure ExternalResult where
  combined_risk_score : ℚ
  risk_factors : List String
deriving DecidableEq, Repr

/-- Combined verdict built by `_combine_fraud_results`
(real_time_processor.py, lines 229-254). -/
structure CombinedResult where
  is_fraud : Bool
  fraud_probability : ℚ
  risk_level : RiskLevel
  risk_factors : List String
  timestamp : ℚ
deriving DecidableEq, Repr

/-- `RealTimeFraudProcessor._combine_fraud_results`
(real_time_processor.py, lines 229-254): weighted sum with fixed
weights 0.6/0.4, fraud flag at `> 0.5`, risk level from the combined
score, risk factors deduplicated with `list(set(...))` (the internal
result contributes `.get('risk_factors', []) = []`).  `now` stands for
`datetime.now().isoformat()`. -/
def combineFraudResults (internal : InternalResult) (external : ExternalResult)
    (now : ℚ) : CombinedResult :=
  let combined_score :=
    internal.fraud_probability * (6/10) + external.combined_risk_score * (4/10)
  { is_fraud := combined_score > 1/2
    fraud_probability := combined_score
    risk_level := getRiskLevel combined_score
    risk_factors := (([] : List String) ++ external.risk_factors).dedup
    timestamp := now }

/-- Outcome of one external reputation lookup as `analyze_transaction`
sees it: `none` when the source is unconfigured or its call returned an
`error` marker, otherwise the processed response's `risk_score` and
`risk_factors` (fraud_databases.py, `_process_maxmind_response` /
`_process_sift_score`). -/
structure SourceResult where
  risk_score : ℚ
  risk_factors : List String
deriving DecidableEq, Repr

/-- Matched row of the `ip_reputation` table
(fraud_databases.py, `_check_internal_reputation`). -/
structure IpReputation where
  risk_score : ℚ
  is_proxy : Bool
  is_vpn : Bool
deriving DecidableEq, Repr

/-- Matched row of the `email_reputation` table
(fraud_databases.py, `_check_internal_reputation`). -/
structure EmailReputation where
  risk_score : ℚ
  is_disposable : Bool
deriving DecidableEq, Repr

/-- `FraudDatabaseManager._check_internal_reputation`
(fraud_databases.py, lines 354-398): an IP hit adds `risk_score*0.5`
plus proxy/vpn factors, an email hit adds `risk_score*0.3` plus a
disposable-email factor; the total is clamped with `min(·, 1.0)`.
`none` models a missing field or no table hit. -/
def checkInternalReputation (ip : Option IpReputation)
    (email : Option EmailReputation) : SourceResult :=
  let afterIp : ℚ × List String :=
    match ip with
    | none => (0, [])
    | some r =>
        (0 + r.risk_score * (5/10),
          (if r.is_proxy then ["proxy_ip"] else []) ++
            (if r.is_vpn then ["vpn_ip"] else []))
  let afterEmail : ℚ × List String :=
    match email with
    | none => afterIp
    | some r =>
        (afterIp.1 + r.risk_score * (3/10),
          afterIp.2 ++ (if r.is_disposable then ["disposable_email"] else []))
  { risk_score := min afterEmail.1 1, risk_factors := afterEmail.2 }

/-- `FraudDatabaseManager.analyze_transaction` (fraud_databases.py,
lines 297-352).  MaxMind contributes `risk_score*0.4`, Sift
`risk_score*0.3`, the internal reputation check `risk_score*0.3`; a
source that is unconfigured or whose call failed (`none`) contributes
nothing and the other weights are unchanged; the sum is clamped with
`min(·, 1.0)` and the factors deduplicated with `list(set(...))`. -/
def analyzeTransaction (maxmind sift : Option SourceResult)
    (ip : Option IpReputation) (email : Option EmailReputation) :
    ExternalResult :=
  let afterMaxmind : ℚ × List String :=
    match maxmind with
    | none => (0, [])
    | some r => (0 + r.risk_score * (4/10), [] ++ r.risk_factors)
  let afterSift : ℚ × List String :=
    match sift with
    | none => afterMaxmind
    | some r => (afterMaxmind.1 + r.risk_score * (3/10), afterMaxmind.2 ++ r.risk_factors)
  let internal := checkInternalReputation ip email
  let score := afterSift.1 + internal.risk_score * (3/10)
  let factors := afterSift.2 ++ internal.risk_factors
  { combined_risk_score := min score 1, risk_factors := factors.dedup }

/-- The internal reputation score is clamped to `[0,1]` when the table
scores are non-negative. -/
theorem checkInternalReputation_bounds (ip : Option IpReputation)
    (email : Option EmailReputation)
    (hip : ∀ r, ip = some r → 0 ≤ r.risk_score)
    (hem : ∀ r, email = some r → 0 ≤ r.risk_score) :
    0 ≤ (checkInternalReputation ip email).risk_score ∧
      (checkInternalReputation ip email).risk_score ≤ 1 := by
  constructor
  · cases ip with
    | none =>
      cases email with
      | none => exact le_min (by norm_num) (by norm_num)
      | some e =>
        have he := hem e rfl
        exact le_min (by linarith) (by norm_num)
    | some i =>
      have hi := hip i rfl
      cases email with
      | none => exact le_min (by linarith) (by norm_num)
      | some e =>
        have he := hem e rfl
        exact le_min (by linarith) (by norm_num)
  · cases ip <;> cases email <;> exact min_le_right _ _

/-- The external combined risk score is clamped to `[0,1]` when every
source score is non-negative. -/
theorem analyzeTransaction_bounds (maxmind sift : Option SourceResult)
    (ip : Option IpReputation) (email : Option EmailReputation)
    (hm : ∀ r, maxmind = some r → 0 ≤ r.risk_score)
    (hs : ∀ r, sift = some r → 0 ≤ r.risk_score)
    (hip : ∀ r, ip = some r → 0 ≤ r.risk_score)
    (hem : ∀ r, email = some r → 0 ≤ r.risk_score) :
    0 ≤ (analyzeTransaction maxmind sift ip email).combined_risk_score ∧
      (analyzeTransaction maxmind sift ip email).combined_risk_score ≤ 1 := by
  obtain ⟨hr0, hr1⟩ := checkInternalReputation_bounds ip email hip hem
  constructor
  · cases maxmind with
    | none =>
      cases sift with
      | none => exact le_min (by linarith) (by norm_num)
      | some s =>
        have := hs s rfl
        exact le_min (by linarith) (by norm_num)
    | some m =>
      have hmm := hm m rfl
      cases sift with
      | none => exact le_min (by linarith) (by norm_num)
      | some s =>
        have := hs s rfl
        exact le_min (by linarith) (by norm_num)
  · cases maxmind <;> cases sift <;> exact min_le_right _ _

/-- C2: for every probability `p`, `_get_risk_level` returns High iff
`p ≥ 0.7`, Medium iff `0.3 ≤ p < 0.7`, and Low iff `p < 0.3`; the copy
in `fraud_detection_model.py` agrees with the copy in
`real_time_processor.py` everywhere. -/
theorem risk_level_threshold_law (p : ℚ) :
    (getRiskLevel p = RiskLevel.High ↔ 7/10 ≤ p) ∧
    (getRiskLevel p = RiskLevel.Medium ↔ 3/10 ≤ p ∧ p < 7/10) ∧
    (getRiskLevel p = RiskLevel.Low ↔ p < 3/10) ∧
    model_getRiskLevel p = getRiskLevel p := by
  unfold getRiskLevel model_getRiskLevel
  split_ifs with h1 h2 <;>
    refine ⟨?_, ?_, ?_, rfl⟩ <;>
    constructor <;>
    intro h <;>
    (try simp_all) <;>
    linarith

/-- C1: the combined fraud probability equals
`internal*0.6 + external*0.4` exactly, and for internal probability and
external risk score in `[0,1]` it never exceeds `1.0`. -/
theorem combine_fusion_law (internal : InternalResult) (external : ExternalResult)
    (now : ℚ)
    (hi0 : 0 ≤ internal.fraud_probability) (hi1 : internal.fraud_probability ≤ 1)
    (he0 : 0 ≤ external.combined_risk_score) (he1 : external.combined_risk_score ≤ 1) :
    (combineFraudResults internal external now).fraud_probability =
      internal.fraud_probability * (6/10) + external.combined_risk_score * (4/10) ∧
    (combineFraudResults internal external now).fraud_probability ≤ 1 := by
  refine ⟨rfl, ?_⟩
  show internal.fraud_probability * (6/10) + external.combined_risk_score * (4/10) ≤ 1
  nlinarith

/-- Witness for C1 at internal probability `1`, external score `1`:
the fused score is `0.6*1 + 0.4*1 = 1 ≤ 1`. -/
theorem combine_fusion_law_witness :
    (combineFraudResults ⟨true, 1, .High⟩ ⟨1, []⟩ 0).fraud_probability =
      (1 : ℚ) * (6/10) + 1 * (4/10) ∧
    (combineFraudResults ⟨true, 1, .High⟩ ⟨1, []⟩ 0).fraud_probability ≤ 1 :=
  combine_fusion_law ⟨true, 1, .High⟩ ⟨1, []⟩ 0
    (by norm_num) (by norm_num) (by norm_num) (by norm_num)

/-- C3: for an internal probability in `[0,1]` and non-negative
external source risk scores, the fused `combined_probability` lies in
`[0,1]`. -/
theorem combined_probability_unit_interval (internal : InternalResult)
    (maxmind sift : Option SourceResult) (ip : Option IpReputation)
    (email : Option EmailReputation) (now : ℚ)
    (hi0 : 0 ≤ internal.fraud_probability) (hi1 : internal.fraud_probability ≤ 1)
    (hm : ∀ r, maxmind = some r → 0 ≤ r.risk_score)
    (hs : ∀ r, sift = some r → 0 ≤ r.risk_score)
    (hip : ∀ r, ip = some r → 0 ≤ r.risk_score)
    (hem : ∀ r, email = some r → 0 ≤ r.risk_score) :
    0 ≤ (combineFraudResults internal
        (analyzeTransaction maxmind sift ip email) now).fraud_probability ∧
      (combineFraudResults internal
        (analyzeTransaction maxmind sift ip email) now).fraud_probability ≤ 1 := by
  obtain ⟨he0, he1⟩ := analyzeTransaction_bounds maxmind sift ip email hm hs hip hem
  constructor
  · show 0 ≤ internal.fraud_probability * (6/10) +
      (analyzeTransaction maxmind sift ip email).combined_risk_score * (4/10)
    linarith
  · show internal.fraud_probability * (6/10) +
      (analyzeTransaction maxmind sift ip email).combined_risk_score * (4/10) ≤ 1
    linarith

/-- Witness for C3: internal probability `1/2`, one MaxMind hit of
score `1/2`, everything else absent. -/
theorem combined_probability_unit_interval_witness :
    0 ≤ (combineFraudResults ⟨false, 1/2, .Medium⟩
        (analyzeTransaction (some ⟨1/2, []⟩) none none none) 0).fraud_probability ∧
      (combineFraudResults ⟨false, 1/2, .Medium⟩
        (analyzeTransaction (some ⟨1/2, []⟩) none none none) 0).fraud_probability ≤ 1 :=
  combined_probability_unit_interval ⟨false, 1/2, .Medium⟩
    (some ⟨1/2, []⟩) none none none 0 (by norm_num) (by norm_num)
    (by intro r hr; cases hr; norm_num) (by intro r hr; cases hr)
    (by intro r hr; cases hr) (by intro r hr; cases hr)

/-- C6: each configured source contributes `risk_score * weight` with
the fixed weights 0.4 (MaxMind), 0.3 (Sift), 0.3 (internal
reputation); an unconfigured or failing source scores exactly like a
configured source returning 0 — the remaining weights are not
renormalized; the weighted sum is clamped to `[0,1]` for non-negative
scores; and with the 0.4-weight and 0.3-weight sources both returning
`1.0` and every other contribution 0, the external risk score is
`min(0.4 + 0.3, 1.0) = 0.7`. -/
theorem external_score_weighting (maxmind sift : Option SourceResult)
    (ip : Option IpReputation) (email : Option EmailReputation)
    (hm : ∀ r, maxmind = some r → 0 ≤ r.risk_score)
    (hs : ∀ r, sift = some r → 0 ≤ r.risk_score)
    (hip : ∀ r, ip = some r → 0 ≤ r.risk_score)
    (hem : ∀ r, email = some r → 0 ≤ r.risk_score) :
    (analyzeTransaction maxmind sift ip email).combined_risk_score =
      min ((maxmind.elim 0 fun r => r.risk_score * (4/10)) +
        (sift.elim 0 fun r => r.risk_score * (3/10)) +
        (checkInternalReputation ip email).risk_score * (3/10)) 1 ∧
    (analyzeTransaction none sift ip email).combined_risk_score =
      (analyzeTransaction (some ⟨0, []⟩) sift ip email).combined_risk_score ∧
    (analyzeTransaction maxmind none ip email).combined_risk_score =
      (analyzeTransaction maxmind (some ⟨0, []⟩) ip email).combined_risk_score ∧
    (0 ≤ (analyzeTransaction maxmind sift ip email).combined_risk_score ∧
      (analyzeTransaction maxmind sift ip email).combined_risk_score ≤ 1) ∧
    (analyzeTransaction (some ⟨1, []⟩) (some ⟨1, []⟩) none none).combined_risk_score
      = 7/10 := by
  refine ⟨?_, ?_, ?_, analyzeTransaction_bounds maxmind sift ip email hm hs hip hem, ?_⟩
  · cases maxmind <;> cases sift <;>
      simp [analyzeTransaction, Option.elim, zero_add]
  · cases sift <;> simp [analyzeTransaction, zero_add]
  · cases maxmind <;> simp [analyzeTransaction, zero_add]
  · norm_num [analyzeTransaction, checkInternalReputation]

/-- Witness for C6 with every source absent: the external score sits
in `[0,1]`. -/
theorem external_score_weighting_witness :
    0 ≤ (analyzeTransaction none none none none).combined_risk_score ∧
      (analyzeTransaction none none none none).combined_risk_score ≤ 1 :=
  (external_score_weighting none none none none
    (by intro r hr; cases hr) (by intro r hr; cases hr)
    (by intro r hr; cases hr) (by intro r hr; cases hr)).2.2.2.1

/-- Fields of a transaction dictionary that `insert_transaction` reads
(database.py): `dict.get` yields `None` for a missing key, modelled as
`none`. -/
structure TxnData where
  transaction_id : Option String
  user_id : Option String
  amount : Option ℚ
  merchant : Option String
deriving DecidableEq, Repr

/-- Row of the `transactions` table as written by `insert_transaction`
(columns read back elsewhere are omitted; `features` is a JSON dump of
the input and carries no extra information). -/
structure TxnRow where
  transaction_id : Option String
  user_id : Option String
  amount : Option ℚ
  merchant : String
  is_fraud : Bool
  fraud_probability : ℚ
  risk_level : RiskLevel
deriving DecidableEq, Repr

/-- The Store: the `transactions` table (database.py, `init_database`,
lines 17-32: `transaction_id TEXT UNIQUE NOT NULL`,
`user_id TEXT NOT NULL`, `amount REAL NOT NULL`). -/
structure Store where
  rows : List TxnRow
deriving DecidableEq, Repr

/-- SQLite integrity check for the insert, per the schema constraints
(database.py, lines 17-32): NOT NULL on `transaction_id`, `user_id`
and `amount`, UNIQUE on `transaction_id`. -/
def integrityViolation (s : Store) (r : TxnRow) : Bool :=
  r.transaction_id.isNone || r.user_id.isNone || r.amount.isNone ||
    s.rows.any fun q => q.transaction_id == r.transaction_id

/-- The raw SQL `INSERT` of `insert_transaction` (database.py, lines
75-89): a constraint violation raises `sqlite3.IntegrityError`,
otherwise the row is appended and `cursor.lastrowid` returned. -/
def rawInsert (s : Store) (r : TxnRow) : Except String (Store × Nat) :=
  if integrityViolation s r then .error "IntegrityError"
  else .ok (⟨s.rows ++ [r]⟩, s.rows.length + 1)

/-- Row built by `insert_transaction` from the transaction dictionary
and the prediction result (merchant defaults to `Unknown`). -/
def mkRow (data : TxnData) (pred : CombinedResult) : TxnRow :=
  { transaction_id := data.transaction_id
    user_id := data.user_id
    amount := data.amount
    merchant := data.merchant.getD "Unknown"
    is_fraud := pred.is_fraud
    fraud_probability := pred.fraud_probability
    risk_level := pred.risk_level }

/-- `FraudDatabase.insert_transaction` (database.py, lines 69-97): the
`sqlite3.IntegrityError` is caught, printed, and `None` returned; on
success the new row id is returned. -/
def insert_transaction (s : Store) (data : TxnData) (pred : CombinedResult) :
    Store × Option Nat :=
  match rawInsert s (mkRow data pred) with
  | .ok (s2, rowid) => (s2, some rowid)
  | .error _ => (s, none)

/-- Number of stored rows carrying a given transaction identifier. -/
def countTid (s : Store) (tid : String) : Nat :=
  s.rows.countP fun r => r.transaction_id == some tid

/-- C4: inserting a transaction whose identifier is already stored is a
no-op, not an error: the store is unchanged, exactly one row for that
identifier remains, and the call returns `none` normally — the caught
`IntegrityError` is not surfaced to the caller. -/
theorem insert_duplicate_noop (s : Store) (data : TxnData)
    (pred : CombinedResult) (tid : String)
    (htid : data.transaction_id = some tid)
    (hdup : countTid s tid = 1) :
    insert_transaction s data pred = (s, none) ∧
      countTid (insert_transaction s data pred).1 tid = 1 := by
  have hpos : 0 < s.rows.countP (fun r => r.transaction_id == some tid) := by
    unfold countTid at hdup
    omega
  obtain ⟨q, hq, hqt⟩ := List.countP_pos_iff.mp hpos
  have hviol : integrityViolation s (mkRow data pred) = true := by
    have hany : (s.rows.any fun r =>
        r.transaction_id == (mkRow data pred).transaction_id) = true := by
      rw [List.any_eq_true]
      refine ⟨q, hq, ?_⟩
      show (q.transaction_id == data.transaction_id) = true
      rw [htid]
      exact hqt
    simp [integrityViolation, hany]
  have h1 : insert_transaction s data pred = (s, none) := by
    simp [insert_transaction, rawInsert, hviol]
  exact ⟨h1, by rw [h1]; exact hdup⟩

/-- Witness for C4: re-inserting identifier `T1` into a store already
holding one row for `T1` leaves the store unchanged and returns
`none`. -/
theorem insert_duplicate_noop_witness :
    insert_transaction ⟨[⟨some "T1", some "U1", some 100, "M", false, 0, .Low⟩]⟩
        ⟨some "T1", some "U2", some 5, none⟩ ⟨true, 9/10, .High, [], 0⟩ =
      (⟨[⟨some "T1", some "U1", some 100, "M", false, 0, .Low⟩]⟩, none) ∧
      countTid (insert_transaction
        ⟨[⟨some "T1", some "U1", some 100, "M", false, 0, .Low⟩]⟩
        ⟨some "T1", some "U2", some 5, none⟩ ⟨true, 9/10, .High, [], 0⟩).1 "T1" = 1 :=
  insert_duplicate_noop _ _ _ "T1" rfl (by decide)

/-- C10: an event with a `None` required field (`user_id` or `amount`)
takes the same caught-`IntegrityError` path as a duplicate insert: the
raw SQL insert errors, yet `insert_transaction` returns `(store, none)`
with no row stored — at the Store interface a malformed event is
indistinguishable from a duplicate and is silently dropped. -/
theorem insert_malformed_like_duplicate (s : Store) (data : TxnData)
    (pred : CombinedResult)
    (hmal : data.user_id = none ∨ data.amount = none) :
    (∃ msg, rawInsert s (mkRow data pred) = .error msg) ∧
      insert_transaction s data pred = (s, none) := by
  have hviol : integrityViolation s (mkRow data pred) = true := by
    rcases hmal with h | h <;> simp [integrityViolation, mkRow, h]
  exact ⟨⟨"IntegrityError", by simp [rawInsert, hviol]⟩,
    by simp [insert_transaction, rawInsert, hviol]⟩

/-- Witness for C10: an event with `user_id = None` is dropped with the
error caught, exactly like a duplicate. -/
theorem insert_malformed_like_duplicate_witness :
    (∃ msg, rawInsert ⟨[]⟩
        (mkRow ⟨some "T2", none, some 5, none⟩ ⟨false, 0, .Low, [], 0⟩) = .error msg) ∧
      insert_transaction ⟨[]⟩ ⟨some "T2", none, some 5, none⟩ ⟨false, 0, .Low, [], 0⟩ =
        (⟨[]⟩, none) :=
  insert_malformed_like_duplicate ⟨[]⟩ ⟨some "T2", none, some 5, none⟩
    ⟨false, 0, .Low, [], 0⟩ (Or.inl rfl)

/-- Row of the recent-transaction window that
`_calculate_velocity_features` reads back from
`get_recent_transactions` (times measured in hours; `amount` comes
from a NOT NULL column). -/
structure RecentTxn where
  user_id : String
  timestamp : ℚ
  amount : ℚ
deriving DecidableEq, Repr

/-- The `user_recent` filter (real_time_processor.py, lines 204-206):
same user and a timestamp strictly later than 24 hours before `now`. -/
def userRecent (userId : String) (now : ℚ) (recent : List RecentTxn) :
    List RecentTxn :=
  recent.filter fun t => t.user_id == userId && decide (now - 24 < t.timestamp)

/-- Velocity feature dictionary returned by
`_calculate_velocity_features`; the empty-history branch omits the
`avg_transaction_amount` key, hence the `Option`. -/
structure VelocityFeatures where
  num_transactions_today : ℕ
  velocity_score : ℚ
  amount_deviation : ℚ
  avg_transaction_amount : Option ℚ
deriving DecidableEq, Repr

/-- `RealTimeFraudProcessor._calculate_velocity_features`
(real_time_processor.py, lines 197-227): fixed defaults
`(1, 0.1, 0.5)` when the trailing window is empty; otherwise
`min(count/10, 1.0)`, `count + 1`, and `|amount − avg| / max(avg, 1)`
guarded by `avg > 0`. -/
def calculateVelocityFeatures (userId : String) (amount : ℚ) (now : ℚ)
    (recent : List RecentTxn) : VelocityFeatures :=
  let ur := userRecent userId now recent
  if ur.isEmpty then
    { num_transactions_today := 1
      velocity_score := 1/10
      amount_deviation := 1/2
      avg_transaction_amount := none }
  else
    let amounts := ur.map fun t => t.amount
    let avg := amounts.sum / (amounts.length : ℚ)
    { num_transactions_today := ur.length + 1
      velocity_score := min ((ur.length : ℚ) / 10) 1
      amount_deviation := if avg > 0 then |amount - avg| / max avg 1 else 0
      avg_transaction_amount := some avg }

/-- C5 counterexample: a user with no trailing transactions does not
get velocity score `min(0/10, 1.0) = 0` — the code returns the fixed
default `0.1`, and it reports a transaction count of `1`, not the
trailing count `0`. -/
theorem velocity_empty_history_counterexample :
    (calculateVelocityFeatures "USER_0" 100 0 []).velocity_score = 1/10 ∧
      (calculateVelocityFeatures "USER_0" 100 0 []).velocity_score ≠
        min ((0 : ℚ) / 10) 1 ∧
      (calculateVelocityFeatures "USER_0" 100 0 []).num_transactions_today ≠ 0 := by
  refine ⟨rfl, ?_, by decide⟩
  norm_num [calculateVelocityFeatures, userRecent]

/-- C5 (amended): when the user has at least one transaction in the
trailing 24 hours, the velocity score is `min(count/10, 1.0)` with
`count` the trailing count, the reported count is `count + 1`, and the
amount deviation is `|amount − trailing average| / max(average, 1)`
when the trailing average is positive and `0` otherwise; a user with
no trailing transactions gets the fixed defaults `count 1`, velocity
score `0.1` and deviation `0.5`. -/
theorem velocity_features_behaviour (userId : String) (amount now : ℚ)
    (recent : List RecentTxn) :
    (∀ avg : ℚ, userRecent userId now recent ≠ [] →
      avg = ((userRecent userId now recent).map fun t => t.amount).sum /
          ((((userRecent userId now recent).map fun t => t.amount).length : ℕ) : ℚ) →
      (calculateVelocityFeatures userId amount now recent).velocity_score =
          min (((userRecent userId now recent).length : ℚ) / 10) 1 ∧
        (calculateVelocityFeatures userId amount now recent).num_transactions_today =
          (userRecent userId now recent).length + 1 ∧
        (calculateVelocityFeatures userId amount now recent).amount_deviation =
          (if 0 < avg then |amount - avg| / max avg 1 else 0) ∧
        (calculateVelocityFeatures userId amount now recent).avg_transaction_amount =
          some avg) ∧
    (userRecent userId now recent = [] →
      calculateVelocityFeatures userId amount now recent =
        { num_transactions_today := 1
          velocity_score := 1/10
          amount_deviation := 1/2
          avg_transaction_amount := none }) := by
  constructor
  · intro avg hne havg
    subst havg
    cases hur : userRecent userId now recent with
    | nil => exact absurd hur hne
    | cons a l =>
      refine ⟨?_, ?_, ?_, ?_⟩ <;>
        simp only [calculateVelocityFeatures, hur, List.isEmpty_cons,
          Bool.false_eq_true, if_false, gt_iff_lt]
  · intro h
    simp [calculateVelocityFeatures, h]

/-- Witness for C5 (amended): one trailing transaction of amount `50`
one hour after the epoch, current time 24, current amount `100`. -/
theorem velocity_features_behaviour_witness :
    (calculateVelocityFeatures "u" 100 24 [⟨"u", 1, 50⟩]).velocity_score =
        min (((userRecent "u" 24 [⟨"u", 1, 50⟩]).length : ℚ) / 10) 1 ∧
      (calculateVelocityFeatures "u" 100 24 [⟨"u", 1, 50⟩]).num_transactions_today =
        (userRecent "u" 24 [⟨"u", 1, 50⟩]).length + 1 ∧
      (calculateVelocityFeatures "u" 100 24 [⟨"u", 1, 50⟩]).amount_deviation =
        (if 0 < (50 : ℚ) then |(100 : ℚ) - 50| / max 50 1 else 0) ∧
      (calculateVelocityFeatures "u" 100 24 [⟨"u", 1, 50⟩]).avg_transaction_amount =
        some 50 :=
 by
  have hur : userRecent "u" 24 [⟨"u", 1, 50⟩] = [⟨"u", 1, 50⟩] := by
    norm_num [userRecent, List.filter]
  exact (velocity_features_behaviour "u" 100 24 [⟨"u", 1, 50⟩]).1 50
    (by rw [hur]; simp) (by rw [hur]; norm_num)

/-- Alert payload built by `_queue_alert` (real_time_processor.py,
lines 265-275). -/
structure AlertData where
  transaction_id : Option String
  user_id : Option String
  amount : Option ℚ
  fraud_probability : ℚ
  risk_factors : List String
  timestamp : ℚ
deriving DecidableEq, Repr

/-- `RealTimeFraudProcessor._queue_alert` (real_time_processor.py,
lines 265-275): the payload pushed onto the alert queue. -/
def queueAlert (data : TxnData) (fraudResult : CombinedResult) (now : ℚ) :
    AlertData :=
  { transaction_id := data.transaction_id
    user_id := data.user_id
    amount := data.amount
    fraud_probability := fraudResult.fraud_probability
    risk_factors := fraudResult.risk_factors
    timestamp := now }

/-- A queued transaction together with the outcomes of its external
collaborator calls: the classifier call — which raises when the model
is not trained (fraud_detection_model.py, line 117) — and the
reputation sources, whose failures `analyze_transaction` already
absorbs. -/
structure QueuedTxn where
  data : TxnData
  internalCall : Except String InternalResult
  maxmind : Option SourceResult
  sift : Option SourceResult
  ipRep : Option IpReputation
  emailRep : Option EmailReputation
deriving Repr

/-- Shared state a processing worker touches while handling a batch:
the Store, the alert queue and the two counters
(real_time_processor.py, lines 102-136). -/
structure SysState where
  store : Store
  alertQueue : List AlertData
  processedCount : ℕ
  fraudDetectedCount : ℕ
deriving Repr

/-- Body of the per-item `try` block of `_process_transaction_batch`
(real_time_processor.py, lines 105-133): combine the scores, persist,
enqueue an alert exactly when the risk level is High, bump the
counters. -/
def processTransaction (now : ℚ) (st : SysState) (data : TxnData)
    (internal : InternalResult) (external : ExternalResult) : SysState :=
  let combined := combineFraudResults internal external now
  let store2 := (insert_transaction st.store data combined).1
  let alerts2 := if combined.risk_level = .High
    then st.alertQueue ++ [queueAlert data combined now]
    else st.alertQueue
  { store := store2
    alertQueue := alerts2
    processedCount := st.processedCount + 1
    fraudDetectedCount := st.fraudDetectedCount + (if combined.is_fraud then 1 else 0) }

/-- One item of `_process_transaction_batch`: a failing classifier
call makes the whole per-item body raise. -/
def processItemE (now : ℚ) (st : SysState) (q : QueuedTxn) :
    Except String SysState := do
  let internal ← q.internalCall
  .ok (processTransaction now st q.data internal
    (analyzeTransaction q.maxmind q.sift q.ipRep q.emailRep))

/-- `_process_transaction_batch` (real_time_processor.py, lines
102-136): each item runs inside its own `try`; an exception is caught
and logged and the loop continues with the next item. -/
def processBatch (now : ℚ) (st : SysState) (items : List QueuedTxn) : SysState :=
  items.foldl (fun s i =>
    match processItemE now s i with
    | .ok s2 => s2
    | .error _ => s) st

/-- C7: while processing one transaction, an alert task is enqueued if
and only if the combined result's risk level is High, and the payload
carries the transaction id, user id, amount, combined probability,
risk factors and timestamp; below High the alert queue is untouched. -/
theorem alert_iff_high_risk (now : ℚ) (st : SysState) (data : TxnData)
    (internal : InternalResult) (external : ExternalResult) :
    ((processTransaction now st data internal external).alertQueue ≠ st.alertQueue
        ↔ (combineFraudResults internal external now).risk_level = .High) ∧
      ((combineFraudResults internal external now).risk_level = .High →
        (processTransaction now st data internal external).alertQueue =
          st.alertQueue ++
            [{ transaction_id := data.transaction_id
               user_id := data.user_id
               amount := data.amount
               fraud_probability :=
                 (combineFraudResults internal external now).fraud_probability
               risk_factors := (combineFraudResults internal external now).risk_factors
               timestamp := now }]) ∧
      ((combineFraudResults internal external now).risk_level ≠ .High →
        (processTransaction now st data internal external).alertQueue =
          st.alertQueue) := by
  refine ⟨⟨?_, ?_⟩, ?_, ?_⟩
  · intro hne
    by_contra h
    apply hne
    simp [processTransaction, h]
  · intro h
    simp only [processTransaction, h, if_true]
    intro heq
    have hlen := congrArg List.length heq
    simp at hlen
  · intro h
    simp [processTransaction, h, queueAlert]
  · intro h
    simp [processTransaction, h]

/-- Witness for C7: a transaction whose fused probability is `1`
(hence High) enqueues exactly its alert payload. -/
theorem alert_iff_high_risk_witness :
    (processTransaction 5 ⟨⟨[]⟩, [], 0, 0⟩ ⟨some "T", some "U", some 10, none⟩
        ⟨true, 1, .High⟩ ⟨1, ["tag"]⟩).alertQueue =
      [] ++
        [{ transaction_id := some "T"
           user_id := some "U"
           amount := some 10
           fraud_probability :=
             (combineFraudResults ⟨true, 1, .High⟩ ⟨1, ["tag"]⟩ 5).fraud_probability
           risk_factors := (combineFraudResults ⟨true, 1, .High⟩ ⟨1, ["tag"]⟩ 5).risk_factors
           timestamp := 5 }] :=
  (alert_iff_high_risk 5 ⟨⟨[]⟩, [], 0, 0⟩ ⟨some "T", some "U", some 10, none⟩
    ⟨true, 1, .High⟩ ⟨1, ["tag"]⟩).2.1
    (by norm_num [combineFraudResults, getRiskLevel])

/-- C8: a failure raised while processing one item is caught and that
item alone is dropped: a failing head leaves the state untouched while
the rest of the batch is still processed, a succeeding head
contributes its update, and batch processing never propagates an
error — a batch equals its two halves processed in sequence. -/
theorem batch_failure_containment (now : ℚ) (st : SysState) (q : QueuedTxn)
    (rest xs ys : List QueuedTxn) :
    (∀ e, processItemE now st q = .error e →
      processBatch now st (q :: rest) = processBatch now st rest) ∧
    (∀ st2, processItemE now st q = .ok st2 →
      processBatch now st (q :: rest) = processBatch now st2 rest) ∧
    processBatch now st (xs ++ ys) =
      processBatch now (processBatch now st xs) ys := by
  refine ⟨?_, ?_, ?_⟩
  · intro e he
    simp [processBatch, he]
  · intro st2 hok
    simp [processBatch, hok]
  · simp [processBatch, List.foldl_append]

/-- Witness for C8: an item whose classifier call raises is dropped —
the batch of just that item processes like the empty batch. -/
theorem batch_failure_containment_witness :
    processBatch 0 ⟨⟨[]⟩, [], 0, 0⟩
        [⟨⟨some "T", some "U", some 1, none⟩, .error "boom", none, none, none, none⟩] =
      processBatch 0 ⟨⟨[]⟩, [], 0, 0⟩ [] :=
  (batch_failure_containment 0 ⟨⟨[]⟩, [], 0, 0⟩
    ⟨⟨some "T", some "U", some 1, none⟩, .error "boom", none, none, none, none⟩
    [] [] []).1 "boom" rfl
